import Mathlib

/-!
Shallow embedding of the `rtmp` client core (HidenXL/gortmp): the session
lifecycle (`NewClient`, `Reset`, `Disconnect`, `Connect`), the transaction
correlator (`NextTransactionId`, `GetResponse`, `Call`), the inbound router
(`routeLoop` dispatch, `routeCommandMessage`), and the byte-counting
transport wrapper (`Read`, `Write`), translated from `client.go` and
`client_route.go`.

Machine integers are modelled as `Nat` with explicit reduction modulo `2^32`
where the Go code performs `uint32` arithmetic.  Go maps keyed by `uint32`
are modelled as association lists with at most one entry per key (lookup
takes the first match; store replaces).  Channels carry no data in the
claims considered here, so a channel is modelled by its open/closed flag.
Side effects such as logging are ignored: only state and results are kept.
-/

set_option autoImplicit false

namespace Rtmp

/-- `2^32`: the modulus of Go `uint32` arithmetic. -/
def UINT32_MOD : Nat := 4294967296

/-- Modelled from the spec: `DEFAULT_CHUNK_SIZE` is declared outside the two
files under `src/`; the spec fixes the default chunk size at 128 bytes. -/
def DEFAULT_CHUNK_SIZE : Nat := 128

/-- Modelled from the spec: `DEFAULT_WINDOW_SIZE` is declared outside the two
files under `src/`; the spec fixes the default window size at 2,500,000. -/
def DEFAULT_WINDOW_SIZE : Nat := 2500000

/-- Modelled from the spec: the reserved protocol chunk-stream-id is 2. -/
def CHUNK_STREAM_ID_PROTOCOL : Nat := 2

/-- Modelled from the spec: the command chunk-stream-id constant is declared
outside `src/`; its numeric value is irrelevant to the routing logic, which
only compares against it, and it is distinct from the protocol id. -/
def CHUNK_STREAM_ID_COMMAND : Nat := 3

/-- The error value `ErrResponseTimeout = errors.New("rtmp: response timeout")`
from `client.go`; errors are modelled by their message strings. -/
def ErrResponseTimeout : String := "rtmp: response timeout"

/-- A decoded command result / response.  `client_route.go` stores values
produced by the external command codec; the only field the core inspects is
the transaction id (`uint32(result.TransactionId)`). -/
structure Result where
  transactionId : Nat
deriving DecidableEq

/-- `client.go` names the stored values `*Response`; `client_route.go` names
what it stores `*Result`.  Both denote the decoded reply payload keyed by
transaction id, so they share one model type. -/
abbrev Response := Result

/-- A complete application-level message (spec §3): chunk-stream-id,
message-type-id, timestamp, message-stream-id, payload bytes, transaction id.
`decodeResult` — modelled from the spec: `msg.DecodeResult` invokes the
external command codec collaborator, which is outside `src/`; its verdict on
this message's payload (`none` = decode error) is carried as data. -/
structure Message where
  chunkStreamId : Nat
  typeId : Nat
  timestamp : Nat
  streamId : Nat
  transactionId : Nat
  payload : List Nat
  decodeResult : Option Result
deriving DecidableEq

/-- A transport connection, modelled by whether it has been closed.
`net.Conn.Close` on an already-closed connection returns an error (which
`Reset` ignores) and does not panic. -/
structure Conn where
  closed : Bool
deriving DecidableEq

/-- A Go channel, modelled by its open/closed flag.  `close` on an
already-closed channel panics; `Reset` only ever closes freshly made (open)
channels, which the no-panic theorem below makes precise. -/
structure MsgChan where
  closed : Bool
deriving DecidableEq

/-- Per-chunk-stream outbound state; its contents are owned by the chunk
codec and are opaque to the lifecycle claims, which only create and clear
the map holding these. -/
structure OutboundChunkStream where
  id : Nat
deriving DecidableEq

/-- Per-chunk-stream inbound state; opaque to the lifecycle claims. -/
structure InboundChunkStream where
  id : Nat
deriving DecidableEq

/-- The `Client` struct of `client.go`.  Maps are association lists;
channels are `Option MsgChan` (`none` = Go `nil`); the AMF external handler
functions are opaque, so the handler map keeps only names paired with an
opaque token. -/
structure Client where
  url : String
  connected : Bool
  conn : Option Conn
  outBytes : Nat
  outMessages : Option MsgChan
  outWindowSize : Nat
  outChunkSize : Nat
  outChunkStreams : List (Nat × OutboundChunkStream)
  inBytes : Nat
  inMessages : Option MsgChan
  inNotify : List Nat
  inWindowSize : Nat
  inChunkSize : Nat
  inChunkStreams : List (Nat × InboundChunkStream)
  responses : List (Nat × Result)
  lastTransactionId : Nat
  connectionId : String
  amfExternalHandlers : List (String × Nat)
deriving DecidableEq

/-- Go map read `m[tid]` (missing key gives the zero value `nil`, modelled
as `none`): first entry with the matching key. -/
def lookupResponse : List (Nat × Result) → Nat → Option Result
  | [], _ => none
  | p :: rest, tid => if p.1 = tid then some p.2 else lookupResponse rest tid

/-- Go `delete(m, tid)`: remove the entry for `tid`. -/
def eraseResponse : List (Nat × Result) → Nat → List (Nat × Result)
  | [], _ => []
  | p :: rest, tid =>
    if p.1 = tid then eraseResponse rest tid else p :: eraseResponse rest tid

/-- Go map write `m[tid] = r`: replace any previous entry for `tid`
(last-write-wins). -/
def storeResult (m : List (Nat × Result)) (tid : Nat) (r : Result) :
    List (Nat × Result) :=
  (tid, r) :: eraseResponse m tid

/-- `c.conn.Close()` guarded by `c.conn != nil`: the connection object stays
referenced but becomes closed. -/
def closeConn : Option Conn → Option Conn
  | none => none
  | some _ => some { closed := true }

/-- Whether `Reset` would panic on this state: Go `close` on an
already-closed channel panics.  (`close` on a `nil` channel is never
attempted: both closes are guarded by `!= nil` checks.) -/
def resetPanics (c : Client) : Bool :=
  (match c.outMessages with
   | some ch => ch.closed
   | none => false) ||
  (match c.inMessages with
   | some ch => ch.closed
   | none => false)

/-- `Client.Reset` (client.go lines 65–93): clear the connected flag, close
the transport and both channels when present, then reinstall fresh empty
state: zero byte counters, fresh open channels, default chunk/window sizes,
empty chunk-stream maps, empty response table, zero transaction counter,
empty connection id.  `amfExternalHandlers`, `inNotify` and `url` are not
touched by `Reset`. -/
def Reset (c : Client) : Client :=
  { c with
    connected := false
    conn := closeConn c.conn
    outBytes := 0
    outMessages := some { closed := false }
    outChunkSize := DEFAULT_CHUNK_SIZE
    outWindowSize := DEFAULT_WINDOW_SIZE
    outChunkStreams := []
    inBytes := 0
    inMessages := some { closed := false }
    inChunkSize := DEFAULT_CHUNK_SIZE
    inWindowSize := DEFAULT_WINDOW_SIZE
    inChunkStreams := []
    responses := []
    lastTransactionId := 0
    connectionId := "" }

/-- `NewClient(url)`: a zero-valued `Client` with the url and a fresh
handler map, then `Reset`. -/
def NewClient (url : String) : Client :=
  Reset
    { url := url
      connected := false
      conn := none
      outBytes := 0
      outMessages := none
      outWindowSize := 0
      outChunkSize := 0
      outChunkStreams := []
      inBytes := 0
      inMessages := none
      inNotify := []
      inWindowSize := 0
      inChunkSize := 0
      inChunkStreams := []
      responses := []
      lastTransactionId := 0
      connectionId := ""
      amfExternalHandlers := [] }

/-- `Client.Disconnect`: `Reset` followed by a log line. -/
def Disconnect (c : Client) : Client :=
  Reset c

/-- `Client.IsAlive`: reports the connected flag. -/
def IsAlive (c : Client) : Bool :=
  c.connected

/-- `Client.NextTransactionId`: `atomic.AddUint32(&c.lastTransactionId, 1)`
returns the incremented value; `uint32` addition wraps modulo `2^32`. -/
def NextTransactionId (c : Client) : Nat × Client :=
  let v := (c.lastTransactionId + 1) % UINT32_MOD
  (v, { c with lastTransactionId := v })

/-- The ids returned by `n` sequential calls to `NextTransactionId`,
together with the final state. -/
def allocN (c : Client) : Nat → List Nat × Client
  | 0 => ([], c)
  | n + 1 =>
    let p := NextTransactionId c
    let q := allocN p.2 n
    (p.1 :: q.1, q.2)

/-- `Client.GetResponse(tid)` (client.go lines 168–177): look up the stored
response; when present report ready and delete it, otherwise report not
ready.  Returns (response, ready, updated client). -/
def GetResponse (c : Client) (tid : Nat) : Option Result × Bool × Client :=
  match lookupResponse c.responses tid with
  | some r => (some r, true, { c with responses := eraseResponse c.responses tid })
  | none => (none, false, c)

/-- `Client.Read` (client.go lines 208–213): forward the transport's read
result `(n, err)` unchanged and add `uint32(n)` to the inbound byte counter
with `uint32` wraparound. -/
def Read (c : Client) (n : Nat) (err : Option String) :
    (Nat × Option String) × Client :=
  ((n, err), { c with inBytes := (c.inBytes + n) % UINT32_MOD })

/-- `Client.Write` (client.go lines 215–220): forward the transport's write
result `(n, err)` unchanged and add `uint32(n)` to the outbound byte
counter with `uint32` wraparound. -/
def Write (c : Client) (n : Nat) (err : Option String) :
    (Nat × Option String) × Client :=
  ((n, err), { c with outBytes := (c.outBytes + n) % UINT32_MOD })

/-- Where `routeLoop` sends one dequeued message.  The first three
constructors are the three branches of the `switch` in `client_route.go`
lines 14–21; `handedToMediaHook` is never produced by the code — it names
the hand-off to an external media/data collaborator that the spec
describes, so the dispatch can be compared against the spec's words. -/
inductive RouteAction where
  | protocolHandled
  | commandRouted
  | discarded
  | handedToMediaHook
deriving DecidableEq

/-- The dispatch of `routeLoop` (client_route.go lines 14–21) on one
message: the protocol id goes to the protocol handler, the command id to
`routeCommandMessage`, and any other chunk-stream-id is logged with a
"discarding message" warning and dropped. -/
def routeMessageAction (msg : Message) : RouteAction :=
  if msg.chunkStreamId = CHUNK_STREAM_ID_PROTOCOL then RouteAction.protocolHandled
  else if msg.chunkStreamId = CHUNK_STREAM_ID_COMMAND then RouteAction.commandRouted
  else RouteAction.discarded

/-- `Client.routeCommandMessage` (client_route.go lines 25–37): decode the
payload via the external codec; on failure log and drop, on success store
the result under `uint32(result.TransactionId)`.  Modelled from the spec:
the `results` map and `resultsMutex` this function writes are declared
outside the files under `src/`; per the spec the Router "store[s] the
result in the Transaction Correlator (last-write-wins on an unclaimed id)",
i.e. in the pending-response table that `GetResponse` reads, so the store
targets `responses`. -/
def routeCommandMessage (c : Client) (msg : Message) : Client :=
  match msg.decodeResult with
  | none => c
  | some result =>
    { c with
      responses :=
        storeResult c.responses (result.transactionId % UINT32_MOD) result }

/-- Route a batch of inbound command messages in arrival order: what the
Router does between two of `Call`'s table checks. -/
def routeAll (c : Client) (msgs : List Message) : Client :=
  msgs.foldl routeCommandMessage c

/-- The interval of the ticker `Call` creates: 5 milliseconds. -/
def callTickerIntervalMs : Nat := 5

/-- The deadline `Call` arms via `time.After(t * time.Second)`, in
milliseconds. -/
def callTimeoutMs (t : Nat) : Nat := t * 1000

/-- One iteration of `Call`'s `select`: either the 5 ms ticker fires —
carrying the command messages the Router stored since the previous check —
or the timeout channel fires. -/
inductive CallEvent where
  | tick (arrivals : List Message)
  | timeoutFire
deriving DecidableEq

/-- A `CallEvent` delivers no result for transaction id `tid`: every
arrival either fails to decode or decodes to a different id. -/
def tickAvoids (tid : Nat) : CallEvent → Prop
  | CallEvent.tick arrivals =>
    ∀ m ∈ arrivals, ∀ r, m.decodeResult = some r →
      r.transactionId % UINT32_MOD ≠ tid
  | CallEvent.timeoutFire => True

instance (tid : Nat) : (e : CallEvent) → Decidable (tickAvoids tid e)
  | CallEvent.tick arrivals => by unfold tickAvoids; infer_instance
  | CallEvent.timeoutFire => by unfold tickAvoids; infer_instance

/-- The `for { select { ... } }` loop of `Call` (client.go lines 193–203),
driven by the sequence of ticker/timeout firings: a ticker firing first
applies the Router's stores, then polls `GetResponse`; if ready the
response is returned with no error, and a timeout firing returns the nil
response with `ErrResponseTimeout`.  `none` means the event list ran out
with the caller still blocked. -/
def callLoop (tid : Nat) :
    Client → List CallEvent → Option ((Option Result × Option String) × Client)
  | _, [] => none
  | c, CallEvent.tick arrivals :: evs =>
    let c1 := routeAll c arrivals
    let g := GetResponse c1 tid
    if g.2.1 then some ((g.1, none), g.2.2) else callLoop tid g.2.2 evs
  | c, CallEvent.timeoutFire :: _ =>
    some ((none, some ErrResponseTimeout), c)

/-- `Client.Call(msg, t)` (client.go lines 183–206): enqueue `msg` on the
outbound queue (a hand-off to the Send Loop, outside this state), take
`tid := msg.TransactionId`, then block on the 5 ms ticker / `t`-second
timeout loop. -/
def Call (c : Client) (msg : Message) (t : Nat) (evs : List CallEvent) :
    Option ((Option Result × Option String) × Client) :=
  callLoop msg.transactionId c evs

/-- The outcomes of the externally-effectful steps of `Connect`: the URL
parse (error, or the scheme), the TCP dial, the TLS handshake (rtmps only),
the RTMP handshake, and the connect-command round trip (error, or the
connection id).  Each models a collaborator outside this state. -/
structure ConnectEnv where
  parsed : Except String String
  dialErr : Option String
  tlsHandshakeErr : Option String
  handshakeErr : Option String
  connectResult : Except String String

/-- The tail of `Connect` after the transport is established (client.go
lines 137–161): run the RTMP handshake, start the receive/send/route
loops, issue the connect command, and only when all of that succeeded set
the connected flag and record the connection id. -/
def afterDial (c : Client) (env : ConnectEnv) : Client × Option String :=
  match env.handshakeErr with
  | some e => (c, some ("client connect: could not complete handshake: " ++ e))
  | none =>
    match env.connectResult with
    | Except.error e =>
      (c, some ("client connect: could not complete connect: " ++ e))
    | Except.ok id =>
      ({ c with connected := true, connectionId := id }, none)

/-- `Client.Connect` (client.go lines 104–162): parse the URL; on scheme
"rtmp" dial (note the Go multi-assign `c.conn, err = DialTimeout` writes
`nil` into `c.conn` when the dial fails); on scheme "rtmps" dial and run a
TLS handshake, installing the connection only on success; any other scheme
is an error.  Then proceed as `afterDial`.  Returns the final state and
the error (`none` = success). -/
def Connect (c : Client) (env : ConnectEnv) : Client × Option String :=
  match env.parsed with
  | Except.error e => (c, some e)
  | Except.ok scheme =>
    if scheme = "rtmp" then
      match env.dialErr with
      | some e => ({ c with conn := none }, some e)
      | none => afterDial { c with conn := some { closed := false } } env
    else if scheme = "rtmps" then
      match env.dialErr with
      | some e => (c, some e)
      | none =>
        match env.tlsHandshakeErr with
        | some e => (c, some e)
        | none => afterDial { c with conn := some { closed := false } } env
    else
      (c, some ("Unsupported scheme: " ++ scheme))

/-! ### Association-list lemmas shared by the claim theorems -/

theorem lookup_erase_self (m : List (Nat × Result)) (tid : Nat) :
    lookupResponse (eraseResponse m tid) tid = none := by
  induction m with
  | nil => rfl
  | cons p rest ih =>
    by_cases h : p.1 = tid <;> simp [eraseResponse, lookupResponse, h, ih]

theorem lookup_erase_ne (m : List (Nat × Result)) {k tid : Nat} (h : k ≠ tid) :
    lookupResponse (eraseResponse m k) tid = lookupResponse m tid := by
  induction m with
  | nil => rfl
  | cons p rest ih =>
    by_cases hp : p.1 = k
    · have : p.1 ≠ tid := by
        rw [hp]; exact h
      simp [eraseResponse, lookupResponse, hp, this, ih, h]
    · by_cases ht : p.1 = tid <;>
        simp [eraseResponse, lookupResponse, hp, ht, ih, h, Ne.symm h]

theorem lookup_store_self (m : List (Nat × Result)) (tid : Nat) (r : Result) :
    lookupResponse (storeResult m tid r) tid = some r := by
  simp [storeResult, lookupResponse]

theorem lookup_store_ne (m : List (Nat × Result)) {k tid : Nat} (r : Result)
    (h : k ≠ tid) :
    lookupResponse (storeResult m k r) tid = lookupResponse m tid := by
  simp [storeResult, lookupResponse, h, lookup_erase_ne m h]

theorem erase_store_self (m : List (Nat × Result)) (tid : Nat) (r : Result) :
    eraseResponse (storeResult m tid r) tid = eraseResponse m tid := by
  simp [storeResult, eraseResponse]
  induction m with
  | nil => rfl
  | cons p rest ih =>
    by_cases h : p.1 = tid <;> simp [eraseResponse, h, ih]

/-! ### Claim theorems -/

/-- Claim C4: `GetResponse` is non-blocking and at-most-once per id: when a
response is stored for a transaction id, the first retrieval returns it
ready and removes it, an immediate second retrieval for the same id reports
not found, and retrieval for an id with no stored response reports not
ready. -/
theorem getResponse_at_most_once (c : Client) (tid : Nat) (r : Result)
    (h : lookupResponse c.responses tid = some r) :
    (GetResponse c tid).1 = some r ∧
    (GetResponse c tid).2.1 = true ∧
    GetResponse (GetResponse c tid).2.2 tid =
      (none, false, (GetResponse c tid).2.2) ∧
    (∀ tid2, lookupResponse c.responses tid2 = none →
      GetResponse c tid2 = (none, false, c)) := by
  refine ⟨by simp [GetResponse, h], by simp [GetResponse, h], ?_, ?_⟩
  · simp [GetResponse, h, lookup_erase_self]
  · intro tid2 h2
    simp [GetResponse, h2]

/-- A client whose pending-response table holds a response for id 7, used
to instantiate retrieval theorems. -/
def clientWith7 : Client :=
  { NewClient "rtmp://host/app" with
    responses := [(7, { transactionId := 7 })] }

theorem getResponse_at_most_once_witness :
    lookupResponse clientWith7.responses 7 = some { transactionId := 7 } ∧
    (GetResponse clientWith7 7).1 = some { transactionId := 7 } ∧
    GetResponse (GetResponse clientWith7 7).2.2 7 =
      (none, false, (GetResponse clientWith7 7).2.2) := by
  have h :=
    getResponse_at_most_once clientWith7 7 { transactionId := 7 } (by decide)
  exact ⟨by decide, h.1, h.2.2.1⟩

/-- Claim C9: retrieval for a transaction id with no stored response
returns the not-ready result and leaves the client — in particular the
whole pending-response table — completely unchanged. -/
theorem getResponse_missing_frame (c : Client) (tid : Nat)
    (h : lookupResponse c.responses tid = none) :
    GetResponse c tid = (none, false, c) := by
  simp [GetResponse, h]

theorem getResponse_missing_frame_witness :
    lookupResponse (NewClient "rtmp://host/app").responses 7 = none ∧
    GetResponse (NewClient "rtmp://host/app") 7 =
      (none, false, NewClient "rtmp://host/app") :=
  ⟨by decide, getResponse_missing_frame (NewClient "rtmp://host/app") 7 (by decide)⟩

/-- Claim C7: `Reset` (and `Disconnect`, which is `Reset` plus a log line)
clears the connected flag, closes the transport when one is present, zeroes
both byte counters, empties both chunk-stream maps and the pending-response
table, resets the transaction counter and connection id, and installs fresh
open queues; a repeated call on an already-reset session is a safe no-op:
it panics on nothing (`resetPanics` is false on a reset state, so both
channel closes act on open channels) and leaves the state unchanged
(`Reset` is idempotent). -/
theorem reset_clears_state_and_is_idempotent (c : Client) :
    (Reset c).connected = false ∧
    ((Reset c).conn = none ∨ (Reset c).conn = some { closed := true }) ∧
    (Reset c).outBytes = 0 ∧
    (Reset c).inBytes = 0 ∧
    (Reset c).outChunkStreams = [] ∧
    (Reset c).inChunkStreams = [] ∧
    (Reset c).responses = [] ∧
    (Reset c).lastTransactionId = 0 ∧
    (Reset c).connectionId = "" ∧
    (Reset c).outMessages = some { closed := false } ∧
    (Reset c).inMessages = some { closed := false } ∧
    resetPanics (Reset c) = false ∧
    Reset (Reset c) = Reset c ∧
    Disconnect c = Reset c ∧
    Disconnect (Disconnect c) = Disconnect c := by
  have hconn : (Reset c).conn = none ∨ (Reset c).conn = some { closed := true } := by
    cases hc : c.conn <;> simp [Reset, closeConn, hc]
  have hidem : Reset (Reset c) = Reset c := by
    simp [Reset]
    cases c.conn <;> simp [closeConn]
  exact ⟨rfl, hconn, rfl, rfl, rfl, rfl, rfl, rfl, rfl, rfl, rfl, rfl,
    hidem, rfl, hidem⟩

/-- Claim C8: after `NewClient` and after any `Reset` the transaction
counter is zero, so the next allocation returns 1; in particular an id
allocated in one session is allocated again after a `Reset`, i.e. ids
repeat across sessions of the same client object. -/
theorem transaction_counter_restarts (url : String) (c : Client) :
    (NewClient url).lastTransactionId = 0 ∧
    (NextTransactionId (NewClient url)).1 = 1 ∧
    (Reset c).lastTransactionId = 0 ∧
    (NextTransactionId (Reset c)).1 = 1 ∧
    (NextTransactionId (Reset (NextTransactionId (NewClient url)).2)).1 =
      (NextTransactionId (NewClient url)).1 := by
  refine ⟨rfl, ?_, rfl, ?_, ?_⟩ <;>
    norm_num [NextTransactionId, NewClient, Reset, UINT32_MOD]

/-- Claim C10: `Read` and `Write` forward the transport's byte count and
error unchanged and add exactly that count to the inbound respectively
outbound byte counter, modulo `2^32`; the counters also accumulate across
successive calls modulo `2^32`, and neither call touches the opposite
counter. -/
theorem read_write_count_bytes (c : Client) (n1 n2 : Nat)
    (e1 e2 : Option String) :
    (Read c n1 e1).1 = (n1, e1) ∧
    (Read c n1 e1).2.inBytes = (c.inBytes + n1) % UINT32_MOD ∧
    (Read c n1 e1).2.outBytes = c.outBytes ∧
    (Write c n1 e1).1 = (n1, e1) ∧
    (Write c n1 e1).2.outBytes = (c.outBytes + n1) % UINT32_MOD ∧
    (Write c n1 e1).2.inBytes = c.inBytes ∧
    (Read (Read c n1 e1).2 n2 e2).2.inBytes =
      (c.inBytes + n1 + n2) % UINT32_MOD ∧
    (Write (Write c n1 e1).2 n2 e2).2.outBytes =
      (c.outBytes + n1 + n2) % UINT32_MOD := by
  refine ⟨rfl, rfl, rfl, rfl, rfl, rfl, ?_, ?_⟩ <;>
    simp [Read, Write, Nat.mod_add_mod]

/-- Claim C1: an inbound command message that decodes successfully is
stored in the correlator under its (32-bit) transaction id: the first
retrieval for that id succeeds exactly once with the decoded result, and a
second retrieval before a new response arrives reports not found. -/
theorem router_correlates_command (c : Client) (msg : Message) (r : Result)
    (hdec : msg.decodeResult = some r) :
    (GetResponse (routeCommandMessage c msg)
      (r.transactionId % UINT32_MOD)).1 = some r ∧
    (GetResponse (routeCommandMessage c msg)
      (r.transactionId % UINT32_MOD)).2.1 = true ∧
    GetResponse
        (GetResponse (routeCommandMessage c msg)
          (r.transactionId % UINT32_MOD)).2.2
        (r.transactionId % UINT32_MOD) =
      (none, false,
        (GetResponse (routeCommandMessage c msg)
          (r.transactionId % UINT32_MOD)).2.2) := by
  have hl : lookupResponse (routeCommandMessage c msg).responses
      (r.transactionId % UINT32_MOD) = some r := by
    simp [routeCommandMessage, hdec, lookup_store_self]
  exact ⟨by simp [GetResponse, hl], by simp [GetResponse, hl],
    by simp [GetResponse, hl, lookup_erase_self]⟩

/-- An inbound command message whose payload decodes to transaction id 7. -/
def commandMsg7 : Message :=
  { chunkStreamId := CHUNK_STREAM_ID_COMMAND
    typeId := 20
    timestamp := 0
    streamId := 0
    transactionId := 0
    payload := [2, 0, 7]
    decodeResult := some { transactionId := 7 } }

theorem router_correlates_command_witness :
    commandMsg7.decodeResult = some { transactionId := 7 } ∧
    (GetResponse (routeCommandMessage (NewClient "rtmp://host/app") commandMsg7)
      7).1 = some { transactionId := 7 } := by
  have h := router_correlates_command (NewClient "rtmp://host/app") commandMsg7
    { transactionId := 7 } (by decide)
  have h7 : (7 : Nat) % UINT32_MOD = 7 := by decide
  rw [h7] at h
  exact ⟨by decide, h.1⟩

/-- A message on chunk-stream-id 5, outside the protocol and command ids:
media/data traffic. -/
def mediaMsg5 : Message :=
  { chunkStreamId := 5
    typeId := 8
    timestamp := 0
    streamId := 1
    transactionId := 0
    payload := [1, 2, 3]
    decodeResult := none }

/-- Claim C2 counterexample: a message on chunk-stream-id 5 (neither the
protocol id 2 nor the command id) is discarded by the router's `default`
branch, not handed to a media/data collaborator hook — no such hook exists
in the routing code. -/
theorem route_media_discarded_not_hooked :
    routeMessageAction mediaMsg5 = RouteAction.discarded ∧
    routeMessageAction mediaMsg5 ≠ RouteAction.handedToMediaHook := by
  decide

/-- Claim C2 (amended): every message whose chunk-stream-id is neither the
protocol id nor the command id is logged and discarded by the router;
there is no hand-off to an external media/data collaborator. -/
theorem route_other_ids_discarded (msg : Message)
    (h1 : msg.chunkStreamId ≠ CHUNK_STREAM_ID_PROTOCOL)
    (h2 : msg.chunkStreamId ≠ CHUNK_STREAM_ID_COMMAND) :
    routeMessageAction msg = RouteAction.discarded := by
  simp [routeMessageAction, h1, h2]

theorem route_other_ids_discarded_witness :
    mediaMsg5.chunkStreamId ≠ CHUNK_STREAM_ID_PROTOCOL ∧
    mediaMsg5.chunkStreamId ≠ CHUNK_STREAM_ID_COMMAND ∧
    routeMessageAction mediaMsg5 = RouteAction.discarded :=
  ⟨by decide, by decide,
    route_other_ids_discarded mediaMsg5 (by decide) (by decide)⟩

/-- The id returned by the `k`-th (0-based) of `n` sequential allocations:
the counter plus `k + 1`, reduced modulo `2^32`. -/
theorem allocN_get (n : Nat) : ∀ (c : Client) (k : Nat), k < n →
    (allocN c n).1.get? k =
      some ((c.lastTransactionId + k + 1) % UINT32_MOD) := by
  induction n with
  | zero => intro c k hk; omega
  | succ n ih =>
    intro c k hk
    cases k with
    | zero => rfl
    | succ k =>
      have hk2 : k < n := by omega
      have h1 : (allocN c (n + 1)).1.get? (k + 1) =
          (allocN (NextTransactionId c).2 n).1.get? k := rfl
      rw [h1, ih (NextTransactionId c).2 k hk2]
      have h2 : (NextTransactionId c).2.lastTransactionId =
          (c.lastTransactionId + 1) % UINT32_MOD := rfl
      rw [h2, Nat.add_assoc ((c.lastTransactionId + 1) % UINT32_MOD) k 1,
        Nat.mod_add_mod]
      congr 2
      omega

/-- Claim C5 counterexample: `uint32` wraparound breaks strict monotonicity
and uniqueness.  On a fresh client the first allocation returns 1, the
`2^32`-th returns 0 (a decrease), and the `2^32 + 1`-st returns 1 again
(a repeat), so the sequence of `2^32 + 1` sequential allocations is neither
strictly increasing nor repeat-free. -/
theorem nextTransactionId_wraps :
    (allocN (NewClient "rtmp://host/app") (UINT32_MOD + 1)).1.get? 0 =
      some 1 ∧
    (allocN (NewClient "rtmp://host/app") (UINT32_MOD + 1)).1.get?
      (UINT32_MOD - 1) = some 0 ∧
    (allocN (NewClient "rtmp://host/app") (UINT32_MOD + 1)).1.get?
      UINT32_MOD = some 1 := by
  have hz : (NewClient "rtmp://host/app").lastTransactionId = 0 := rfl
  have h0 := allocN_get (UINT32_MOD + 1) (NewClient "rtmp://host/app") 0
    (by norm_num)
  have h1 := allocN_get (UINT32_MOD + 1) (NewClient "rtmp://host/app")
    (UINT32_MOD - 1) (by norm_num [UINT32_MOD])
  have h2 := allocN_get (UINT32_MOD + 1) (NewClient "rtmp://host/app")
    UINT32_MOD (by norm_num)
  rw [hz] at h0 h1 h2
  refine ⟨?_, ?_, ?_⟩
  · rw [h0]; norm_num [UINT32_MOD]
  · rw [h1]; norm_num [UINT32_MOD]
  · rw [h2]; norm_num [UINT32_MOD]

/-- Claim C5 (amended): sequential allocations return
`(counter + k + 1) mod 2^32` for the `k`-th call, so as long as the counter
does not wrap — `counter + N < 2^32`, which holds for any fresh client and
`N ≤ 2^32 - 1` — the `N` returned ids are strictly increasing with no
repeats. -/
theorem allocN_strictly_increasing_before_wrap (c : Client) (n i j : Nat)
    (hw : c.lastTransactionId + n < UINT32_MOD) (hij : i < j) (hj : j < n) :
    ∃ a b, (allocN c n).1.get? i = some a ∧
      (allocN c n).1.get? j = some b ∧ a < b := by
  refine ⟨_, _, allocN_get n c i (lt_trans hij hj), allocN_get n c j hj, ?_⟩
  have hi1 : c.lastTransactionId + i + 1 < UINT32_MOD := by omega
  have hj1 : c.lastTransactionId + j + 1 < UINT32_MOD := by omega
  rw [Nat.mod_eq_of_lt hi1, Nat.mod_eq_of_lt hj1]
  omega

theorem allocN_strictly_increasing_before_wrap_witness :
    ((NewClient "rtmp://host/app").lastTransactionId + 3 < UINT32_MOD ∧
      0 < 2 ∧ 2 < 3) ∧
    ∃ a b, (allocN (NewClient "rtmp://host/app") 3).1.get? 0 = some a ∧
      (allocN (NewClient "rtmp://host/app") 3).1.get? 2 = some b ∧ a < b :=
  ⟨by refine ⟨by decide, by decide, by decide⟩,
    allocN_strictly_increasing_before_wrap (NewClient "rtmp://host/app") 3 0 2
      (by decide) (by decide) (by decide)⟩

/-- Routing a batch of command messages none of which resolves `tid` leaves
`tid` unresolved in the pending-response table. -/
theorem lookup_routeAll_none (tid : Nat) (msgs : List Message) :
    ∀ c : Client,
    lookupResponse c.responses tid = none →
    (∀ m ∈ msgs, ∀ r, m.decodeResult = some r →
      r.transactionId % UINT32_MOD ≠ tid) →
    lookupResponse (routeAll c msgs).responses tid = none := by
  induction msgs with
  | nil => intro c h _; exact h
  | cons m rest ih =>
    intro c h havoid
    have hstep : lookupResponse (routeCommandMessage c m).responses tid =
        none := by
      cases hd : m.decodeResult with
      | none => simpa [routeCommandMessage, hd] using h
      | some r =>
        have hne := havoid m (List.mem_cons_self m rest) r hd
        simpa [routeCommandMessage, hd, lookup_store_ne _ _ hne] using h
    exact ih (routeCommandMessage c m) hstep
      (fun m2 hm2 => havoid m2 (List.mem_cons_of_mem _ hm2))

/-- The polling loop of `Call`: when the awaited id never becomes available
on any ticker firing and the timeout fires, the loop returns the timeout
error and the final table holds nothing for that id. -/
theorem callLoop_times_out (tid : Nat) (evs : List CallEvent) :
    ∀ c : Client,
    lookupResponse c.responses tid = none →
    (∀ e ∈ evs, tickAvoids tid e) →
    CallEvent.timeoutFire ∈ evs →
    ∃ c2, callLoop tid c evs = some ((none, some ErrResponseTimeout), c2) ∧
      lookupResponse c2.responses tid = none := by
  induction evs with
  | nil => intro c _ _ hmem; cases hmem
  | cons e rest ih =>
    intro c h havoid hmem
    cases e with
    | timeoutFire => exact ⟨c, rfl, h⟩
    | tick arrivals =>
      have havoid1 : tickAvoids tid (CallEvent.tick arrivals) :=
        havoid _ (List.mem_cons_self _ _)
      have h1 : lookupResponse (routeAll c arrivals).responses tid = none :=
        lookup_routeAll_none tid arrivals c h havoid1
      have hg : GetResponse (routeAll c arrivals) tid =
          (none, false, routeAll c arrivals) := by
        simp [GetResponse, h1]
      have hmem2 : CallEvent.timeoutFire ∈ rest := by
        cases hmem with
        | tail _ hmemr => exact hmemr
      have hrest := ih (routeAll c arrivals) h1
        (fun e2 he2 => havoid e2 (List.mem_cons_of_mem _ he2)) hmem2
      simpa [callLoop, hg] using hrest

/-- Claim C3: `Call` polls the pending-response table for the message's
transaction id on a fixed 5-millisecond ticker against a `t`-second
deadline; when no matching response has appeared by the time the timeout
fires, it returns the timeout error and no stored response remains (or is
left claimed) for that transaction id. -/
theorem call_times_out (c : Client) (msg : Message) (t : Nat)
    (evs : List CallEvent)
    (h0 : lookupResponse c.responses msg.transactionId = none)
    (havoid : ∀ e ∈ evs, tickAvoids msg.transactionId e)
    (hfire : CallEvent.timeoutFire ∈ evs) :
    callTickerIntervalMs = 5 ∧
    callTimeoutMs t = t * 1000 ∧
    ∃ c2, Call c msg t evs = some ((none, some ErrResponseTimeout), c2) ∧
      lookupResponse c2.responses msg.transactionId = none :=
  ⟨rfl, rfl, callLoop_times_out msg.transactionId evs c h0 havoid hfire⟩

/-- An outbound command message carrying transaction id 9. -/
def callMsg9 : Message :=
  { chunkStreamId := CHUNK_STREAM_ID_COMMAND
    typeId := 20
    timestamp := 0
    streamId := 0
    transactionId := 9
    payload := []
    decodeResult := none }

theorem call_times_out_witness :
    (lookupResponse (NewClient "rtmp://host/app").responses
        callMsg9.transactionId = none ∧
      CallEvent.timeoutFire ∈
        [CallEvent.tick [], CallEvent.timeoutFire]) ∧
    (callTickerIntervalMs = 5 ∧
      callTimeoutMs 1 = 1 * 1000 ∧
      ∃ c2, Call (NewClient "rtmp://host/app") callMsg9 1
          [CallEvent.tick [], CallEvent.timeoutFire] =
          some ((none, some ErrResponseTimeout), c2) ∧
        lookupResponse c2.responses callMsg9.transactionId = none) :=
  ⟨⟨by decide, by decide⟩,
    call_times_out (NewClient "rtmp://host/app") callMsg9 1
      [CallEvent.tick [], CallEvent.timeoutFire]
      (by decide) (by decide) (by decide)⟩

/-- Claim C6: starting from a disconnected session, `Connect` reports
success exactly when it ends connected; any failing step (URL parse, dial,
TLS handshake, RTMP handshake, or connect round trip) makes it return that
error with the session still disconnected; and success requires the dial,
the RTMP handshake and the connect round trip all to have succeeded. -/
theorem connect_connected_iff_success (c : Client) (env : ConnectEnv)
    (h : c.connected = false) :
    ((Connect c env).1.connected = true ↔ (Connect c env).2 = none) ∧
    (∀ e, (Connect c env).2 = some e →
      (Connect c env).1.connected = false) ∧
    ((Connect c env).2 = none →
      env.dialErr = none ∧ env.handshakeErr = none ∧
      ∃ id, env.connectResult = Except.ok id) := by
  have hmain : ((Connect c env).1.connected = true ↔ (Connect c env).2 = none) ∧
      ((Connect c env).2 = none →
        env.dialErr = none ∧ env.handshakeErr = none ∧
        ∃ id, env.connectResult = Except.ok id) := by
    obtain ⟨parsed, dialErr, tlsErr, hsErr, connRes⟩ := env
    cases parsed with
    | error e => simp [Connect, h]
    | ok scheme =>
      by_cases hs : scheme = "rtmp"
      · cases dialErr with
        | some e => simp [Connect, hs, h]
        | none =>
          cases hsErr with
          | some e => simp [Connect, afterDial, hs, h]
          | none =>
            cases connRes with
            | error e => simp [Connect, afterDial, hs, h]
            | ok id => simp [Connect, afterDial, hs]
      · by_cases hs2 : scheme = "rtmps"
        · cases dialErr with
          | some e => simp [Connect, hs, hs2, h]
          | none =>
            cases tlsErr with
            | some e => simp [Connect, hs, hs2, h]
            | none =>
              cases hsErr with
              | some e => simp [Connect, afterDial, hs, hs2, h]
              | none =>
                cases connRes with
                | error e => simp [Connect, afterDial, hs, hs2, h]
                | ok id => simp [Connect, afterDial, hs, hs2]
        · simp [Connect, hs, hs2, h]
  refine ⟨hmain.1, ?_, hmain.2⟩
  intro e he
  cases hb : (Connect c env).1.connected with
  | false => rfl
  | true =>
    rw [hmain.1.mp hb] at he
    cases he

/-- A fully successful environment for `Connect` over plain "rtmp". -/
def envOk : ConnectEnv :=
  { parsed := Except.ok "rtmp"
    dialErr := none
    tlsHandshakeErr := none
    handshakeErr := none
    connectResult := Except.ok "conn-1" }

theorem connect_connected_iff_success_witness :
    (NewClient "rtmp://host/app").connected = false ∧
    (((Connect (NewClient "rtmp://host/app") envOk).1.connected = true ↔
        (Connect (NewClient "rtmp://host/app") envOk).2 = none) ∧
      (∀ e, (Connect (NewClient "rtmp://host/app") envOk).2 = some e →
        (Connect (NewClient "rtmp://host/app") envOk).1.connected = false) ∧
      ((Connect (NewClient "rtmp://host/app") envOk).2 = none →
        envOk.dialErr = none ∧ envOk.handshakeErr = none ∧
        ∃ id, envOk.connectResult = Except.ok id)) :=
  ⟨rfl, connect_connected_iff_success (NewClient "rtmp://host/app") envOk rfl⟩

end Rtmp
